import Mathlib

/-!
Shallow embedding of the SIP service layer (`pkg/service/sip.go`).

The service validates administrative requests (create/list/delete SIP trunks
and dispatch rules), persists them via a storage collaborator, and forwards
call-initiation requests to an RPC peer.  External collaborators (auth check,
store, validators, GUID generator, RPC client) are modelled as components of
an environment record; every operation is a pure function of that environment
and the request, returning its result together with the trace of collaborator
calls it performed, in order.
-/

namespace SIPService

/-- Error values returned by the service.  `twirpAuth` is the wrapping of an
authorization failure by `twirpAuthError`; `sipNotConnected` is
`ErrSIPNotConnected`; `invalidInput` covers the `errors.New` / `fmt.Errorf`
input-validation errors of `sip.go` (message kept verbatim); the remaining
constructors are errors produced by the abstract collaborators. -/
inductive Err where
  | twirpAuth (msg : String)
  | sipNotConnected
  | invalidInput (msg : String)
  | storeErr (msg : String)
  | validation (msg : String)
  | rpcErr (msg : String)
deriving DecidableEq, Repr

/-- Type tag for trunk GUIDs (`utils.SIPTrunkPrefix`). -/
def SIPTrunkPrefix : String := "ST_"

/-- Type tag for dispatch-rule GUIDs (`utils.SIPDispatchRulePrefix`). -/
def SIPDispatchRulePrefix : String := "SDR_"

/-- Legacy trunk object `livekit.SIPTrunkInfo`: the fields populated by
`CreateSIPTrunk` in `sip.go`. -/
structure SIPTrunkInfo where
  sipTrunkId : String
  inboundAddresses : List String
  outboundAddress : String
  outboundNumber : String
  inboundNumbers : List String
  inboundUsername : String
  inboundPassword : String
  outboundUsername : String
  outboundPassword : String
  name : String
  metadata : String
deriving DecidableEq, Repr

/-- The zero value of `livekit.SIPTrunkInfo` (all fields unset). -/
def SIPTrunkInfo.empty : SIPTrunkInfo :=
  { sipTrunkId := "", inboundAddresses := [], outboundAddress := "",
    outboundNumber := "", inboundNumbers := [], inboundUsername := "",
    inboundPassword := "", outboundUsername := "", outboundPassword := "",
    name := "", metadata := "" }

/-- Record `livekit.SIPInboundTrunkInfo` — the fields of the inbound trunk object
relevant to this service layer. -/
structure SIPInboundTrunkInfo where
  sipTrunkId : String
  name : String
  metadata : String
  numbers : List String
  allowedAddresses : List String
  authUsername : String
  authPassword : String
deriving DecidableEq, Repr

/-- Modelled from the spec: the protocol library's conversion of a legacy
trunk to its inbound view (`(*SIPTrunkInfo).AsInbound()`, external to this
repository).  Per the spec's data model the candidate keeps its identity
field unchanged ("opaque unique ID, empty until committed") and its inbound
attributes (accepted addresses, accepted numbers, inbound auth credentials). -/
def SIPTrunkInfo.asInbound (p : SIPTrunkInfo) : SIPInboundTrunkInfo :=
  { sipTrunkId := p.sipTrunkId, name := p.name, metadata := p.metadata,
    numbers := p.inboundNumbers, allowedAddresses := p.inboundAddresses,
    authUsername := p.inboundUsername, authPassword := p.inboundPassword }

/-- Record `livekit.SIPOutboundTrunkInfo` — the fields of the outbound trunk object
relevant to this service layer. -/
structure SIPOutboundTrunkInfo where
  sipTrunkId : String
  name : String
  metadata : String
  address : String
  number : String
  authUsername : String
  authPassword : String
deriving DecidableEq, Repr

/-- Record `livekit.SIPDispatchRuleInfo` — the fields populated by
`CreateSIPDispatchRule`.  The nested rule message is treated as an opaque
payload (`Option String`). -/
structure SIPDispatchRuleInfo where
  sipDispatchRuleId : String
  rule : Option String
  trunkIds : List String
  inboundNumbers : List String
  hidePhoneNumber : Bool
  name : String
  metadata : String
  attributes : List (String × String)
deriving DecidableEq, Repr

/-- Record `livekit.CreateSIPTrunkRequest` — the fields read by `CreateSIPTrunk`.
`inboundNumbersRegex` is the deprecated repeated field. -/
structure CreateSIPTrunkRequest where
  inboundAddresses : List String
  outboundAddress : String
  outboundNumber : String
  inboundNumbersRegex : List String
  inboundNumbers : List String
  inboundUsername : String
  inboundPassword : String
  outboundUsername : String
  outboundPassword : String
  name : String
  metadata : String
deriving DecidableEq, Repr

/-- Record `livekit.CreateSIPInboundTrunkRequest`. -/
structure CreateSIPInboundTrunkRequest where
  trunk : Option SIPInboundTrunkInfo
deriving DecidableEq, Repr

/-- Record `livekit.CreateSIPOutboundTrunkRequest`. -/
structure CreateSIPOutboundTrunkRequest where
  trunk : Option SIPOutboundTrunkInfo
deriving DecidableEq, Repr

/-- Record `livekit.CreateSIPDispatchRuleRequest` — the fields read by
`CreateSIPDispatchRule`. -/
structure CreateSIPDispatchRuleRequest where
  rule : Option String
  trunkIds : List String
  inboundNumbers : List String
  hidePhoneNumber : Bool
  name : String
  metadata : String
  attributes : List (String × String)
deriving DecidableEq, Repr

/-- Record `livekit.CreateSIPParticipantRequest` — the fields read by this file. -/
structure CreateSIPParticipantRequest where
  sipTrunkId : String
  sipCallTo : String
  roomName : String
deriving DecidableEq, Repr

/-- Record `rpc.InternalCreateSIPParticipantRequest` — the enriched internal request
sent to the RPC peer; the fields read/written around this file. -/
structure InternalCreateSIPParticipantRequest where
  projectId : String
  sipCallId : String
  host : String
  wsUrl : String
  token : String
  roomName : String
  sipTrunkId : String
  callTo : String
  address : String
  number : String
deriving DecidableEq, Repr

/-- Record `rpc.InternalCreateSIPParticipantResponse` — the fields read by
`CreateSIPParticipant`. -/
structure InternalCreateSIPParticipantResponse where
  participantId : String
  participantIdentity : String
deriving DecidableEq, Repr

/-- Record `livekit.SIPParticipantInfo` — the response of `CreateSIPParticipant`. -/
structure SIPParticipantInfo where
  participantId : String
  participantIdentity : String
  roomName : String
  sipCallId : String
deriving DecidableEq, Repr

/-- Modelled from the spec: `rpc.NewCreateSIPParticipantRequest` (external to
this repository) translates the external request into an internal request
"enriched with a freshly generated call identifier and the resolved
outbound-trunk configuration" (§4.3). -/
def newCreateSIPParticipantRequest (projectID callID host wsUrl token : String)
    (req : CreateSIPParticipantRequest) (trunk : SIPOutboundTrunkInfo) :
    Except Err InternalCreateSIPParticipantRequest :=
  .ok { projectId := projectID, sipCallId := callID, host := host,
        wsUrl := wsUrl, token := token, roomName := req.roomName,
        sipTrunkId := req.sipTrunkId, callTo := req.sipCallTo,
        address := trunk.address, number := trunk.number }

/-- The storage collaborator (`SIPStore`): each method is one independent
round-trip whose outcome is fixed by the environment. -/
structure SIPStore where
  listSIPTrunk : Except Err (List SIPTrunkInfo)
  listSIPInboundTrunk : Except Err (List SIPInboundTrunkInfo)
  listSIPOutboundTrunk : Except Err (List SIPOutboundTrunkInfo)
  loadSIPInboundTrunk : String → Except Err SIPInboundTrunkInfo
  loadSIPOutboundTrunk : String → Except Err SIPOutboundTrunkInfo
  storeSIPTrunk : SIPTrunkInfo → Except Err Unit
  storeSIPInboundTrunk : SIPInboundTrunkInfo → Except Err Unit
  storeSIPOutboundTrunk : SIPOutboundTrunkInfo → Except Err Unit
  deleteSIPTrunk : String → Except Err Unit
  listSIPDispatchRule : Except Err (List SIPDispatchRuleInfo)
  loadSIPDispatchRule : String → Except Err SIPDispatchRuleInfo
  storeSIPDispatchRule : SIPDispatchRuleInfo → Except Err Unit
  deleteSIPDispatchRule : SIPDispatchRuleInfo → Except Err Unit

/-- One collaborator call performed by an operation (the observable side
effects: store round-trips, validator invocations, identifier allocations and
the RPC dispatch). -/
inductive Event where
  | listTrunks
  | listInboundTrunks
  | listOutboundTrunks
  | loadInboundTrunk (id : String)
  | loadOutboundTrunk (id : String)
  | validatedTrunks (l : List SIPInboundTrunkInfo)
  | validatedDispatchRules (l : List SIPDispatchRuleInfo)
  | guidAllocated (tag : String)
  | storedTrunk (t : SIPTrunkInfo)
  | storedInboundTrunk (t : SIPInboundTrunkInfo)
  | storedOutboundTrunk (t : SIPOutboundTrunkInfo)
  | deletedTrunk (id : String)
  | listDispatchRules
  | loadDispatchRule (id : String)
  | storedDispatchRule (r : SIPDispatchRuleInfo)
  | deletedDispatchRule (r : SIPDispatchRuleInfo)
  | callIDGenerated (id : String)
  | rpcCreateParticipant (req : InternalCreateSIPParticipantRequest) (timeout : Int)
deriving DecidableEq, Repr

/-- True for a GUID allocation event. -/
def Event.isGuid : Event → Bool
  | .guidAllocated _ => true
  | _ => false

/-- True for a store-write event (any store/delete round-trip that mutates). -/
def Event.isStoreWrite : Event → Bool
  | .storedTrunk _ => true
  | .storedInboundTrunk _ => true
  | .storedOutboundTrunk _ => true
  | .storedDispatchRule _ => true
  | .deletedTrunk _ => true
  | .deletedDispatchRule _ => true
  | _ => false

/-- True for the RPC dispatch event. -/
def Event.isRpc : Event → Bool
  | .rpcCreateParticipant _ _ => true
  | _ => false

/-- The caller's context: current time and optional deadline, in abstract
time units (the Go code uses seconds; `30 * time.Second` is 30 units). -/
structure Context where
  now : Int
  deadline : Option Int
deriving DecidableEq, Repr

/-- The service's environment: the auth checker (`none` = permission granted,
`some msg` = denied), the optional store collaborator (`nil` in Go when not
configured), the validators (`sip.ValidateTrunks` / `sip.ValidateDispatchRules`),
the GUID generator (`guid.New`, keyed by type tag), the call-ID generator
(`sip.NewCallID`) and the RPC peer (`psrpcClient.CreateSIPParticipant`,
receiving the internal request and the request timeout). -/
structure Env where
  authAdmin : Option String
  authCall : Option String
  store : Option SIPStore
  validateTrunks : List SIPInboundTrunkInfo → Except Err Unit
  validateDispatchRules : List SIPDispatchRuleInfo → Except Err Unit
  guidNew : String → String
  newCallID : String
  psrpcCreate : InternalCreateSIPParticipantRequest → Int → Except Err InternalCreateSIPParticipantResponse

/-- Message of the deprecated-field rejection in `CreateSIPTrunk`
(`sip.go:71`); it directs the caller to the replacement field
`InboundNumbers`. -/
def deprecatedRegexMsg : String :=
  "Trunks with InboundNumbersRegex are deprecated. Use InboundNumbers instead."

/-- Candidate trunk object built by `CreateSIPTrunk` (`sip.go:75-86`): the
request's fields with the ID kept empty, so that validation can print
"<new>" instead of a non-existent ID in the error. -/
def trunkInfoOfReq (req : CreateSIPTrunkRequest) : SIPTrunkInfo :=
  { sipTrunkId := "",
    inboundAddresses := req.inboundAddresses,
    outboundAddress := req.outboundAddress,
    outboundNumber := req.outboundNumber,
    inboundNumbers := req.inboundNumbers,
    inboundUsername := req.inboundUsername,
    inboundPassword := req.inboundPassword,
    outboundUsername := req.outboundUsername,
    outboundPassword := req.outboundPassword,
    name := req.name,
    metadata := req.metadata }

/-- Operation `CreateSIPTrunk` (`sip.go:63-104`). -/
def createSIPTrunk (env : Env) (req : CreateSIPTrunkRequest) :
    Except Err SIPTrunkInfo × List Event :=
  match env.authAdmin with
  | some e => (.error (.twirpAuth e), [])
  | none =>
  match env.store with
  | none => (.error .sipNotConnected, [])
  | some st =>
  if req.inboundNumbersRegex.length ≠ 0 then
    (.error (.invalidInput deprecatedRegexMsg), [])
  else
    -- Keep ID empty, so that validation can print "<new>" instead of a
    -- non-existent ID in the error.
    let info : SIPTrunkInfo := trunkInfoOfReq req
    -- Validate all trunks including the new one first.
    match st.listSIPInboundTrunk with
    | .error e => (.error e, [.listInboundTrunks])
    | .ok l =>
      let l := l ++ [info.asInbound]
      match env.validateTrunks l with
      | .error e => (.error e, [.listInboundTrunks, .validatedTrunks l])
      | .ok _ =>
        -- Now we can generate ID and store.
        let info := { info with sipTrunkId := env.guidNew SIPTrunkPrefix }
        match st.storeSIPTrunk info with
        | .error e =>
            (.error e, [.listInboundTrunks, .validatedTrunks l,
                        .guidAllocated SIPTrunkPrefix, .storedTrunk info])
        | .ok _ =>
            (.ok info, [.listInboundTrunks, .validatedTrunks l,
                        .guidAllocated SIPTrunkPrefix, .storedTrunk info])

/-- Operation `CreateSIPInboundTrunk` (`sip.go:106-138`). -/
def createSIPInboundTrunk (env : Env) (req : CreateSIPInboundTrunkRequest) :
    Except Err SIPInboundTrunkInfo × List Event :=
  match env.authAdmin with
  | some e => (.error (.twirpAuth e), [])
  | none =>
  match env.store with
  | none => (.error .sipNotConnected, [])
  | some st =>
  match req.trunk with
  | none => (.error (.invalidInput "trunk info is required"), [])
  | some info =>
  if info.sipTrunkId ≠ "" then
    (.error (.invalidInput "trunk ID must be empty"), [])
  else
    -- Validate all trunks including the new one first.
    match st.listSIPInboundTrunk with
    | .error e => (.error e, [.listInboundTrunks])
    | .ok l =>
      let l := l ++ [info]
      match env.validateTrunks l with
      | .error e => (.error e, [.listInboundTrunks, .validatedTrunks l])
      | .ok _ =>
        -- Now we can generate ID and store.
        let info := { info with sipTrunkId := env.guidNew SIPTrunkPrefix }
        match st.storeSIPInboundTrunk info with
        | .error e =>
            (.error e, [.listInboundTrunks, .validatedTrunks l,
                        .guidAllocated SIPTrunkPrefix, .storedInboundTrunk info])
        | .ok _ =>
            (.ok info, [.listInboundTrunks, .validatedTrunks l,
                        .guidAllocated SIPTrunkPrefix, .storedInboundTrunk info])

/-- Operation `CreateSIPOutboundTrunk` (`sip.go:140-160`). -/
def createSIPOutboundTrunk (env : Env) (req : CreateSIPOutboundTrunkRequest) :
    Except Err SIPOutboundTrunkInfo × List Event :=
  match env.authAdmin with
  | some e => (.error (.twirpAuth e), [])
  | none =>
  match env.store with
  | none => (.error .sipNotConnected, [])
  | some st =>
  match req.trunk with
  | none => (.error (.invalidInput "trunk info is required"), [])
  | some info =>
  if info.sipTrunkId ≠ "" then
    (.error (.invalidInput "trunk ID must be empty"), [])
  else
    -- No additional validation needed for outbound.
    let info := { info with sipTrunkId := env.guidNew SIPTrunkPrefix }
    match st.storeSIPOutboundTrunk info with
    | .error e =>
        (.error e, [.guidAllocated SIPTrunkPrefix, .storedOutboundTrunk info])
    | .ok _ =>
        (.ok info, [.guidAllocated SIPTrunkPrefix, .storedOutboundTrunk info])

/-- Operation `GetSIPInboundTrunk` (`sip.go:162-176`). -/
def getSIPInboundTrunk (env : Env) (sipTrunkId : String) :
    Except Err SIPInboundTrunkInfo × List Event :=
  match env.authAdmin with
  | some e => (.error (.twirpAuth e), [])
  | none =>
  match env.store with
  | none => (.error .sipNotConnected, [])
  | some st =>
  match st.loadSIPInboundTrunk sipTrunkId with
  | .error e => (.error e, [.loadInboundTrunk sipTrunkId])
  | .ok t => (.ok t, [.loadInboundTrunk sipTrunkId])

/-- Operation `GetSIPOutboundTrunk` (`sip.go:178-192`). -/
def getSIPOutboundTrunk (env : Env) (sipTrunkId : String) :
    Except Err SIPOutboundTrunkInfo × List Event :=
  match env.authAdmin with
  | some e => (.error (.twirpAuth e), [])
  | none =>
  match env.store with
  | none => (.error .sipNotConnected, [])
  | some st =>
  match st.loadSIPOutboundTrunk sipTrunkId with
  | .error e => (.error e, [.loadOutboundTrunk sipTrunkId])
  | .ok t => (.ok t, [.loadOutboundTrunk sipTrunkId])

/-- Operation `ListSIPTrunk` (`sip.go:194-208`). -/
def listSIPTrunk (env : Env) :
    Except Err (List SIPTrunkInfo) × List Event :=
  match env.authAdmin with
  | some e => (.error (.twirpAuth e), [])
  | none =>
  match env.store with
  | none => (.error .sipNotConnected, [])
  | some st =>
  match st.listSIPTrunk with
  | .error e => (.error e, [.listTrunks])
  | .ok ts => (.ok ts, [.listTrunks])

/-- Operation `ListSIPInboundTrunk` (`sip.go:210-224`). -/
def listSIPInboundTrunk (env : Env) :
    Except Err (List SIPInboundTrunkInfo) × List Event :=
  match env.authAdmin with
  | some e => (.error (.twirpAuth e), [])
  | none =>
  match env.store with
  | none => (.error .sipNotConnected, [])
  | some st =>
  match st.listSIPInboundTrunk with
  | .error e => (.error e, [.listInboundTrunks])
  | .ok ts => (.ok ts, [.listInboundTrunks])

/-- Operation `ListSIPOutboundTrunk` (`sip.go:226-240`). -/
def listSIPOutboundTrunk (env : Env) :
    Except Err (List SIPOutboundTrunkInfo) × List Event :=
  match env.authAdmin with
  | some e => (.error (.twirpAuth e), [])
  | none =>
  match env.store with
  | none => (.error .sipNotConnected, [])
  | some st =>
  match st.listSIPOutboundTrunk with
  | .error e => (.error e, [.listOutboundTrunks])
  | .ok ts => (.ok ts, [.listOutboundTrunks])

/-- Operation `DeleteSIPTrunk` (`sip.go:242-255`). -/
def deleteSIPTrunk (env : Env) (sipTrunkId : String) :
    Except Err SIPTrunkInfo × List Event :=
  match env.authAdmin with
  | some e => (.error (.twirpAuth e), [])
  | none =>
  match env.store with
  | none => (.error .sipNotConnected, [])
  | some st =>
  match st.deleteSIPTrunk sipTrunkId with
  | .error e => (.error e, [.deletedTrunk sipTrunkId])
  | .ok _ =>
      (.ok { SIPTrunkInfo.empty with sipTrunkId := sipTrunkId },
       [.deletedTrunk sipTrunkId])

/-- Candidate rule object built by `CreateSIPDispatchRule` (`sip.go:266-274`):
the request's fields with the ID kept empty, so that validation can print
"<new>" instead of a non-existent ID in the error. -/
def ruleInfoOfReq (req : CreateSIPDispatchRuleRequest) : SIPDispatchRuleInfo :=
  { sipDispatchRuleId := "",
    rule := req.rule,
    trunkIds := req.trunkIds,
    inboundNumbers := req.inboundNumbers,
    hidePhoneNumber := req.hidePhoneNumber,
    name := req.name,
    metadata := req.metadata,
    attributes := req.attributes }

/-- Operation `CreateSIPDispatchRule` (`sip.go:257-292`). -/
def createSIPDispatchRule (env : Env) (req : CreateSIPDispatchRuleRequest) :
    Except Err SIPDispatchRuleInfo × List Event :=
  match env.authAdmin with
  | some e => (.error (.twirpAuth e), [])
  | none =>
  match env.store with
  | none => (.error .sipNotConnected, [])
  | some st =>
  -- Keep ID empty, so that validation can print "<new>" instead of a
  -- non-existent ID in the error.
  let info : SIPDispatchRuleInfo := ruleInfoOfReq req
  -- Validate all rules including the new one first.
  match st.listSIPDispatchRule with
  | .error e => (.error e, [.listDispatchRules])
  | .ok l =>
    let l := l ++ [info]
    match env.validateDispatchRules l with
    | .error e => (.error e, [.listDispatchRules, .validatedDispatchRules l])
    | .ok _ =>
      -- Now we can generate ID and store.
      let info := { info with sipDispatchRuleId := env.guidNew SIPDispatchRulePrefix }
      match st.storeSIPDispatchRule info with
      | .error e =>
          (.error e, [.listDispatchRules, .validatedDispatchRules l,
                      .guidAllocated SIPDispatchRulePrefix, .storedDispatchRule info])
      | .ok _ =>
          (.ok info, [.listDispatchRules, .validatedDispatchRules l,
                      .guidAllocated SIPDispatchRulePrefix, .storedDispatchRule info])

/-- Operation `ListSIPDispatchRule` (`sip.go:294-308`). -/
def listSIPDispatchRule (env : Env) :
    Except Err (List SIPDispatchRuleInfo) × List Event :=
  match env.authAdmin with
  | some e => (.error (.twirpAuth e), [])
  | none =>
  match env.store with
  | none => (.error .sipNotConnected, [])
  | some st =>
  match st.listSIPDispatchRule with
  | .error e => (.error e, [.listDispatchRules])
  | .ok rs => (.ok rs, [.listDispatchRules])

/-- Operation `DeleteSIPDispatchRule` (`sip.go:310-328`): load the full rule object by
ID, then delete with the loaded object. -/
def deleteSIPDispatchRule (env : Env) (sipDispatchRuleId : String) :
    Except Err SIPDispatchRuleInfo × List Event :=
  match env.authAdmin with
  | some e => (.error (.twirpAuth e), [])
  | none =>
  match env.store with
  | none => (.error .sipNotConnected, [])
  | some st =>
  match st.loadSIPDispatchRule sipDispatchRuleId with
  | .error e => (.error e, [.loadDispatchRule sipDispatchRuleId])
  | .ok info =>
    match st.deleteSIPDispatchRule info with
    | .error e =>
        (.error e, [.loadDispatchRule sipDispatchRuleId, .deletedDispatchRule info])
    | .ok _ =>
        (.ok info, [.loadDispatchRule sipDispatchRuleId, .deletedDispatchRule info])

/-- Operation `CreateSIPParticipantRequest` (`sip.go:367-392`): auth and store gates,
then the call ID is generated, then the outbound trunk is resolved, and the
internal request is built from the call ID, the request and the trunk. -/
def createSIPParticipantRequest (env : Env) (req : CreateSIPParticipantRequest)
    (projectID host wsUrl token : String) :
    Except Err InternalCreateSIPParticipantRequest × List Event :=
  match env.authCall with
  | some e => (.error (.twirpAuth e), [])
  | none =>
  match env.store with
  | none => (.error .sipNotConnected, [])
  | some st =>
  let callID := env.newCallID
  match st.loadSIPOutboundTrunk req.sipTrunkId with
  | .error e =>
      (.error e, [.callIDGenerated callID, .loadOutboundTrunk req.sipTrunkId])
  | .ok trunk =>
      (newCreateSIPParticipantRequest projectID callID host wsUrl token req trunk,
       [.callIDGenerated callID, .loadOutboundTrunk req.sipTrunkId])

/-- Timeout derivation of `CreateSIPParticipant` (`sip.go:346-353`): the time
remaining until the caller's deadline (`time.Until(deadline)`) when a deadline
is set, else the fixed default of 30 time units (`30 * time.Second`). -/
def timeoutFor (ctx : Context) : Int :=
  match ctx.deadline with
  | some d => d - ctx.now
  | none => 30

/-- The internal request that `CreateSIPParticipant` dispatches: the value of
`createSIPParticipantRequest` on the success path, with the empty
projectID/host/wsUrl/token that `CreateSIPParticipant` passes (`sip.go:332`). -/
def internalReqFor (env : Env) (req : CreateSIPParticipantRequest)
    (trunk : SIPOutboundTrunkInfo) : InternalCreateSIPParticipantRequest :=
  { projectId := "", sipCallId := env.newCallID, host := "", wsUrl := "",
    token := "", roomName := req.roomName, sipTrunkId := req.sipTrunkId,
    callTo := req.sipCallTo, address := trunk.address, number := trunk.number }

/-- Operation `CreateSIPParticipant` (`sip.go:330-365`): build the internal request,
derive the timeout from the caller's deadline (default 30 units), dispatch to
the RPC peer once, and assemble the response. -/
def createSIPParticipant (env : Env) (ctx : Context)
    (req : CreateSIPParticipantRequest) :
    Except Err SIPParticipantInfo × List Event :=
  match createSIPParticipantRequest env req "" "" "" "" with
  | (.error e, tr) => (.error e, tr)
  | (.ok ireq, tr) =>
    -- CreateSIPParticipant will wait for the Participant to be created; set a
    -- higher deadline if not set already.
    let timeout : Int := timeoutFor ctx
    match env.psrpcCreate ireq timeout with
    | .error e => (.error e, tr ++ [.rpcCreateParticipant ireq timeout])
    | .ok resp =>
        (.ok { participantId := resp.participantId,
               participantIdentity := resp.participantIdentity,
               roomName := req.roomName,
               sipCallId := ireq.sipCallId },
         tr ++ [.rpcCreateParticipant ireq timeout])

/-! Concrete collaborator instances, used to evaluate the operations on
closed inputs. -/

/-- A pre-existing inbound trunk held by the store. -/
def sampleInbound : SIPInboundTrunkInfo :=
  { sipTrunkId := "ST_existing", name := "in", metadata := "",
    numbers := ["+111"], allowedAddresses := ["1.1.1.1"],
    authUsername := "", authPassword := "" }

/-- A pre-existing outbound trunk held by the store. -/
def sampleOutbound : SIPOutboundTrunkInfo :=
  { sipTrunkId := "ST_out", name := "out", metadata := "",
    address := "sip.example.com", number := "+222",
    authUsername := "", authPassword := "" }

/-- A pre-existing dispatch rule held by the store. -/
def sampleRule : SIPDispatchRuleInfo :=
  { sipDispatchRuleId := "SDR_existing", rule := some "direct",
    trunkIds := [], inboundNumbers := [], hidePhoneNumber := false,
    name := "", metadata := "", attributes := [] }

/-- A response of the RPC peer. -/
def sampleResp : InternalCreateSIPParticipantResponse :=
  { participantId := "PA_1", participantIdentity := "caller" }

/-- A store whose reads succeed (one pre-existing entry per collection) and
whose writes succeed. -/
def storeOK : SIPStore :=
  { listSIPTrunk := .ok [],
    listSIPInboundTrunk := .ok [sampleInbound],
    listSIPOutboundTrunk := .ok [sampleOutbound],
    loadSIPInboundTrunk := fun _ => .ok sampleInbound,
    loadSIPOutboundTrunk := fun _ => .ok sampleOutbound,
    storeSIPTrunk := fun _ => .ok (),
    storeSIPInboundTrunk := fun _ => .ok (),
    storeSIPOutboundTrunk := fun _ => .ok (),
    deleteSIPTrunk := fun _ => .ok (),
    listSIPDispatchRule := .ok [sampleRule],
    loadSIPDispatchRule := fun _ => .ok sampleRule,
    storeSIPDispatchRule := fun _ => .ok (),
    deleteSIPDispatchRule := fun _ => .ok () }

/-- A store whose by-ID loads fail (unknown ID). -/
def storeLoadFail : SIPStore :=
  { storeOK with
    loadSIPDispatchRule := fun i => .error (.storeErr ("dispatch rule not found: " ++ i)),
    loadSIPOutboundTrunk := fun i => .error (.storeErr ("trunk not found: " ++ i)) }

/-- An environment where every gate passes and every collaborator succeeds. -/
def envOK : Env :=
  { authAdmin := none, authCall := none, store := some storeOK,
    validateTrunks := fun _ => .ok (),
    validateDispatchRules := fun _ => .ok (),
    guidNew := fun tag => tag ++ "gen1",
    newCallID := "SCL_1",
    psrpcCreate := fun _ _ => .ok sampleResp }

/-- An environment whose validators reject every candidate set. -/
def envValFail : Env :=
  { envOK with
    validateTrunks := fun _ => .error (.validation "conflict"),
    validateDispatchRules := fun _ => .error (.validation "conflict") }

/-- An environment whose auth checks deny every call. -/
def envAuthFail : Env :=
  { envOK with authAdmin := some "denied", authCall := some "denied" }

/-- An environment with no store collaborator configured. -/
def envNoStore : Env :=
  { envOK with store := none }

/-- An environment whose RPC peer fails. -/
def envRpcFail : Env :=
  { envOK with psrpcCreate := fun _ _ => .error (.rpcErr "request timed out") }

/-- An environment whose by-ID loads fail. -/
def envLoadFail : Env :=
  { envOK with store := some storeLoadFail }

/-- A legacy trunk create request with no deprecated field. -/
def reqTrunkOK : CreateSIPTrunkRequest :=
  { inboundAddresses := ["2.2.2.2"], outboundAddress := "",
    outboundNumber := "", inboundNumbersRegex := [],
    inboundNumbers := ["+333"], inboundUsername := "", inboundPassword := "",
    outboundUsername := "", outboundPassword := "", name := "t",
    metadata := "" }

/-- A legacy trunk create request using the deprecated regex field. -/
def reqTrunkRegex : CreateSIPTrunkRequest :=
  { reqTrunkOK with inboundNumbersRegex := ["\\+1.*"] }

/-- A candidate inbound trunk (ID empty). -/
def newInbound : SIPInboundTrunkInfo :=
  { sampleInbound with sipTrunkId := "", numbers := ["+333"] }

/-- An inbound trunk create request with a valid candidate. -/
def reqInboundOK : CreateSIPInboundTrunkRequest := { trunk := some newInbound }

/-- A candidate outbound trunk duplicating `sampleOutbound`'s destination. -/
def newOutboundDup : SIPOutboundTrunkInfo :=
  { sampleOutbound with sipTrunkId := "" }

/-- An outbound trunk create request duplicating an existing destination. -/
def reqOutboundDup : CreateSIPOutboundTrunkRequest :=
  { trunk := some newOutboundDup }

/-- A dispatch rule create request. -/
def reqRuleOK : CreateSIPDispatchRuleRequest :=
  { rule := some "direct", trunkIds := ["ST_x"], inboundNumbers := [],
    hidePhoneNumber := false, name := "", metadata := "", attributes := [] }

/-- A participant create request. -/
def reqPart : CreateSIPParticipantRequest :=
  { sipTrunkId := "ST_out", sipCallTo := "+444", roomName := "room1" }

/-- A context with 5 time units remaining until its deadline. -/
def ctx5 : Context := { now := 10, deadline := some 15 }

/-- A context with no deadline. -/
def ctxNone : Context := { now := 10, deadline := none }

/-! Claim theorems. -/

/-- C2: a `CreateSIPTrunk` request whose deprecated `InboundNumbersRegex`
field is non-empty fails with the invalid-input error whose message directs
the caller to the replacement field `InboundNumbers`, regardless of all other
fields, and nothing is validated, allocated or persisted (empty trace).
(`CreateSIPTrunkRequest` is the only create request carrying the legacy
field.) -/
theorem c2_deprecated_regex_rejected
    (env : Env) (st : SIPStore) (req : CreateSIPTrunkRequest)
    (hA : env.authAdmin = none) (hS : env.store = some st)
    (hR : req.inboundNumbersRegex ≠ []) :
    createSIPTrunk env req
      = (.error (.invalidInput
          "Trunks with InboundNumbersRegex are deprecated. Use InboundNumbers instead."),
         []) := by
  have hlen : req.inboundNumbersRegex.length ≠ 0 := by
    simpa [List.length_eq_zero] using hR
  simp [createSIPTrunk, hA, hS, hlen, deprecatedRegexMsg]

/-- C2 witness: the deprecated-field rejection evaluated on a concrete
request whose other fields are valid (they are those of `reqTrunkOK`, which
succeeds in the same environment). -/
theorem c2_deprecated_regex_rejected_witness :
    createSIPTrunk envOK reqTrunkRegex
      = (.error (.invalidInput
          "Trunks with InboundNumbersRegex are deprecated. Use InboundNumbers instead."),
         []) :=
  c2_deprecated_regex_rejected envOK storeOK reqTrunkRegex rfl rfl (by decide)

/-- C3: `CreateSIPOutboundTrunk` with a non-nil trunk and empty ID performs no
cross-validation against existing trunks: it allocates an ID and stores the
trunk unconditionally (its trace holds no list or validator call), so a
duplicate of an existing trunk's destination succeeds absent auth, store
availability, or store-write errors. -/
theorem c3_outbound_no_cross_validation
    (env : Env) (st : SIPStore) (req : CreateSIPOutboundTrunkRequest)
    (info : SIPOutboundTrunkInfo)
    (hA : env.authAdmin = none) (hS : env.store = some st)
    (hT : req.trunk = some info) (hid : info.sipTrunkId = "")
    (hW : st.storeSIPOutboundTrunk
            { info with sipTrunkId := env.guidNew SIPTrunkPrefix } = .ok ()) :
    createSIPOutboundTrunk env req
      = (.ok { info with sipTrunkId := env.guidNew SIPTrunkPrefix },
         [.guidAllocated SIPTrunkPrefix,
          .storedOutboundTrunk { info with sipTrunkId := env.guidNew SIPTrunkPrefix }])
    ∧ (∀ l, Event.validatedTrunks l ∉ (createSIPOutboundTrunk env req).2)
    ∧ Event.listOutboundTrunks ∉ (createSIPOutboundTrunk env req).2
    ∧ Event.listInboundTrunks ∉ (createSIPOutboundTrunk env req).2 := by
  have h1 : createSIPOutboundTrunk env req
      = (.ok { info with sipTrunkId := env.guidNew SIPTrunkPrefix },
         [.guidAllocated SIPTrunkPrefix,
          .storedOutboundTrunk { info with sipTrunkId := env.guidNew SIPTrunkPrefix }]) := by
    simp [createSIPOutboundTrunk, hA, hS, hT, hid, hW]
  refine ⟨h1, ?_, ?_, ?_⟩ <;> simp [h1]

/-- C3 witness: creating an outbound trunk whose destination duplicates the
stored trunk `sampleOutbound` succeeds. -/
theorem c3_outbound_no_cross_validation_witness :
    createSIPOutboundTrunk envOK reqOutboundDup
      = (.ok { newOutboundDup with sipTrunkId := envOK.guidNew SIPTrunkPrefix },
         [.guidAllocated SIPTrunkPrefix,
          .storedOutboundTrunk
            { newOutboundDup with sipTrunkId := envOK.guidNew SIPTrunkPrefix }])
    ∧ newOutboundDup.address = sampleOutbound.address :=
  ⟨(c3_outbound_no_cross_validation envOK storeOK reqOutboundDup newOutboundDup
      rfl rfl rfl rfl rfl).1, rfl⟩

/-- C6: `CreateSIPInboundTrunk` and `CreateSIPOutboundTrunk` fail with an
invalid-input error, with nothing validated, allocated or persisted (empty
trace), whenever the request's trunk object is nil or carries a non-empty
ID. -/
theorem c6_create_requires_empty_id
    (env : Env) (st : SIPStore)
    (hA : env.authAdmin = none) (hS : env.store = some st) :
    (∀ reqI : CreateSIPInboundTrunkRequest, reqI.trunk = none →
        createSIPInboundTrunk env reqI
          = (.error (.invalidInput "trunk info is required"), []))
    ∧ (∀ (reqI : CreateSIPInboundTrunkRequest) (info : SIPInboundTrunkInfo),
        reqI.trunk = some info → info.sipTrunkId ≠ "" →
        createSIPInboundTrunk env reqI
          = (.error (.invalidInput "trunk ID must be empty"), []))
    ∧ (∀ reqO : CreateSIPOutboundTrunkRequest, reqO.trunk = none →
        createSIPOutboundTrunk env reqO
          = (.error (.invalidInput "trunk info is required"), []))
    ∧ (∀ (reqO : CreateSIPOutboundTrunkRequest) (info : SIPOutboundTrunkInfo),
        reqO.trunk = some info → info.sipTrunkId ≠ "" →
        createSIPOutboundTrunk env reqO
          = (.error (.invalidInput "trunk ID must be empty"), [])) := by
  refine ⟨?_, ?_, ?_, ?_⟩
  · intro reqI h
    simp [createSIPInboundTrunk, hA, hS, h]
  · intro reqI info h hid
    simp [createSIPInboundTrunk, hA, hS, h, hid]
  · intro reqO h
    simp [createSIPOutboundTrunk, hA, hS, h]
  · intro reqO info h hid
    simp [createSIPOutboundTrunk, hA, hS, h, hid]

/-- C6 witness: a nil trunk and a non-empty-ID trunk are both rejected, on
concrete requests. -/
theorem c6_create_requires_empty_id_witness :
    createSIPInboundTrunk envOK { trunk := none }
      = (.error (.invalidInput "trunk info is required"), [])
    ∧ createSIPOutboundTrunk envOK { trunk := some sampleOutbound }
      = (.error (.invalidInput "trunk ID must be empty"), []) :=
  ⟨(c6_create_requires_empty_id envOK storeOK rfl rfl).1 { trunk := none } rfl,
   (c6_create_requires_empty_id envOK storeOK rfl rfl).2.2.2
     { trunk := some sampleOutbound } sampleOutbound rfl (by decide)⟩

/-- C8: `DeleteSIPDispatchRule` loads the full rule object by ID before
deletion; if the load fails the operation returns that error without
attempting deletion, and on success the delete is issued with the loaded
object and that full object is returned to the caller. -/
theorem c8_delete_rule_loads_first
    (env : Env) (st : SIPStore) (id : String) (info : SIPDispatchRuleInfo)
    (e : Err)
    (hA : env.authAdmin = none) (hS : env.store = some st) :
    (st.loadSIPDispatchRule id = .error e →
        deleteSIPDispatchRule env id = (.error e, [.loadDispatchRule id]))
    ∧ (st.loadSIPDispatchRule id = .ok info →
        st.deleteSIPDispatchRule info = .ok () →
        deleteSIPDispatchRule env id
          = (.ok info, [.loadDispatchRule id, .deletedDispatchRule info])) := by
  constructor
  · intro h
    simp [deleteSIPDispatchRule, hA, hS, h]
  · intro h hd
    simp [deleteSIPDispatchRule, hA, hS, h, hd]

/-- C8 witness: both branches evaluated — an unknown ID returns the load
error with no delete issued, and a known ID returns the loaded full object. -/
theorem c8_delete_rule_loads_first_witness :
    deleteSIPDispatchRule envLoadFail "SDR_missing"
      = (.error (.storeErr "dispatch rule not found: SDR_missing"),
         [.loadDispatchRule "SDR_missing"])
    ∧ deleteSIPDispatchRule envOK "SDR_existing"
      = (.ok sampleRule,
         [.loadDispatchRule "SDR_existing", .deletedDispatchRule sampleRule]) :=
  ⟨(c8_delete_rule_loads_first envLoadFail storeLoadFail "SDR_missing"
      sampleRule (.storeErr "dispatch rule not found: SDR_missing") rfl rfl).1 rfl,
   (c8_delete_rule_loads_first envOK storeOK "SDR_existing" sampleRule
      .sipNotConnected rfl rfl).2 rfl rfl⟩

/-- C9: `DeleteSIPTrunk` never loads the trunk object — its trace is exactly
the by-ID store delete — and on success the caller receives a `SIPTrunkInfo`
whose only populated field is the requested trunk ID (all other fields are
the zero value). -/
theorem c9_delete_trunk_by_id_only
    (env : Env) (st : SIPStore) (id : String)
    (hA : env.authAdmin = none) (hS : env.store = some st) :
    (deleteSIPTrunk env id).2 = [.deletedTrunk id]
    ∧ (st.deleteSIPTrunk id = .ok () →
        deleteSIPTrunk env id
          = (.ok { SIPTrunkInfo.empty with sipTrunkId := id },
             [.deletedTrunk id])) := by
  constructor
  · cases h : st.deleteSIPTrunk id with
    | error e => simp [deleteSIPTrunk, hA, hS, h]
    | ok u => simp [deleteSIPTrunk, hA, hS, h]
  · intro h
    simp [deleteSIPTrunk, hA, hS, h]

/-- C9 witness: deleting a concrete trunk ID returns an otherwise-empty
`SIPTrunkInfo` holding only that ID, with a single by-ID delete round-trip. -/
theorem c9_delete_trunk_by_id_only_witness :
    deleteSIPTrunk envOK "ST_existing"
      = (.ok { SIPTrunkInfo.empty with sipTrunkId := "ST_existing" },
         [.deletedTrunk "ST_existing"]) :=
  (c9_delete_trunk_by_id_only envOK storeOK "ST_existing" rfl rfl).2 rfl

/-- C1: for each trunk/dispatch-rule create operation (`CreateSIPTrunk`,
`CreateSIPInboundTrunk`, `CreateSIPDispatchRule`), the validator is invoked on
the list of existing entries with the candidate appended at the end while the
candidate's ID field is still empty; on a validation error the operation
returns that error and its trace holds no GUID allocation and no store write,
and on validation success the ID allocation and store write occur only after
the validator call (the trace lists them strictly later). -/
theorem c1_validate_before_alloc
    (env : Env) (st : SIPStore) (lT : List SIPInboundTrunkInfo)
    (lD : List SIPDispatchRuleInfo)
    (reqT : CreateSIPTrunkRequest) (reqI : CreateSIPInboundTrunkRequest)
    (infoI : SIPInboundTrunkInfo) (reqD : CreateSIPDispatchRuleRequest)
    (errT errD : Err)
    (hA : env.authAdmin = none) (hS : env.store = some st)
    (hLT : st.listSIPInboundTrunk = .ok lT)
    (hLD : st.listSIPDispatchRule = .ok lD)
    (hRegex : reqT.inboundNumbersRegex = [])
    (hTI : reqI.trunk = some infoI) (hIid : infoI.sipTrunkId = "") :
    ((trunkInfoOfReq reqT).asInbound.sipTrunkId = ""
        ∧ (ruleInfoOfReq reqD).sipDispatchRuleId = "")
    ∧ (env.validateTrunks (lT ++ [(trunkInfoOfReq reqT).asInbound]) = .error errT →
        createSIPTrunk env reqT
          = (.error errT,
             [.listInboundTrunks,
              .validatedTrunks (lT ++ [(trunkInfoOfReq reqT).asInbound])])
        ∧ ∀ ev ∈ (createSIPTrunk env reqT).2,
            ev.isGuid = false ∧ ev.isStoreWrite = false)
    ∧ (env.validateTrunks (lT ++ [infoI]) = .error errT →
        createSIPInboundTrunk env reqI
          = (.error errT, [.listInboundTrunks, .validatedTrunks (lT ++ [infoI])])
        ∧ ∀ ev ∈ (createSIPInboundTrunk env reqI).2,
            ev.isGuid = false ∧ ev.isStoreWrite = false)
    ∧ (env.validateDispatchRules (lD ++ [ruleInfoOfReq reqD]) = .error errD →
        createSIPDispatchRule env reqD
          = (.error errD,
             [.listDispatchRules,
              .validatedDispatchRules (lD ++ [ruleInfoOfReq reqD])])
        ∧ ∀ ev ∈ (createSIPDispatchRule env reqD).2,
            ev.isGuid = false ∧ ev.isStoreWrite = false)
    ∧ (env.validateTrunks (lT ++ [(trunkInfoOfReq reqT).asInbound]) = .ok () →
        (createSIPTrunk env reqT).2
          = [.listInboundTrunks,
             .validatedTrunks (lT ++ [(trunkInfoOfReq reqT).asInbound]),
             .guidAllocated SIPTrunkPrefix,
             .storedTrunk { trunkInfoOfReq reqT with
                            sipTrunkId := env.guidNew SIPTrunkPrefix }])
    ∧ (env.validateTrunks (lT ++ [infoI]) = .ok () →
        (createSIPInboundTrunk env reqI).2
          = [.listInboundTrunks, .validatedTrunks (lT ++ [infoI]),
             .guidAllocated SIPTrunkPrefix,
             .storedInboundTrunk { infoI with
                                   sipTrunkId := env.guidNew SIPTrunkPrefix }])
    ∧ (env.validateDispatchRules (lD ++ [ruleInfoOfReq reqD]) = .ok () →
        (createSIPDispatchRule env reqD).2
          = [.listDispatchRules,
             .validatedDispatchRules (lD ++ [ruleInfoOfReq reqD]),
             .guidAllocated SIPDispatchRulePrefix,
             .storedDispatchRule { ruleInfoOfReq reqD with
                                   sipDispatchRuleId := env.guidNew SIPDispatchRulePrefix }]) := by
  refine ⟨⟨rfl, rfl⟩, ?_, ?_, ?_, ?_, ?_, ?_⟩
  · intro hv
    have h1 : createSIPTrunk env reqT
        = (.error errT,
           [.listInboundTrunks,
            .validatedTrunks (lT ++ [(trunkInfoOfReq reqT).asInbound])]) := by
      simp [createSIPTrunk, hA, hS, hLT, hRegex, hv]
    refine ⟨h1, ?_⟩
    simp [h1, Event.isGuid, Event.isStoreWrite]
  · intro hv
    have h1 : createSIPInboundTrunk env reqI
        = (.error errT, [.listInboundTrunks, .validatedTrunks (lT ++ [infoI])]) := by
      simp [createSIPInboundTrunk, hA, hS, hTI, hIid, hLT, hv]
    refine ⟨h1, ?_⟩
    simp [h1, Event.isGuid, Event.isStoreWrite]
  · intro hv
    have h1 : createSIPDispatchRule env reqD
        = (.error errD,
           [.listDispatchRules,
            .validatedDispatchRules (lD ++ [ruleInfoOfReq reqD])]) := by
      simp [createSIPDispatchRule, hA, hS, hLD, hv]
    refine ⟨h1, ?_⟩
    simp [h1, Event.isGuid, Event.isStoreWrite]
  · intro hv
    cases hw : st.storeSIPTrunk { trunkInfoOfReq reqT with
                                  sipTrunkId := env.guidNew SIPTrunkPrefix } with
    | error e => simp [createSIPTrunk, hA, hS, hLT, hRegex, hv, hw]
    | ok u => simp [createSIPTrunk, hA, hS, hLT, hRegex, hv, hw]
  · intro hv
    cases hw : st.storeSIPInboundTrunk { infoI with
                                         sipTrunkId := env.guidNew SIPTrunkPrefix } with
    | error e => simp [createSIPInboundTrunk, hA, hS, hTI, hIid, hLT, hv, hw]
    | ok u => simp [createSIPInboundTrunk, hA, hS, hTI, hIid, hLT, hv, hw]
  · intro hv
    cases hw : st.storeSIPDispatchRule { ruleInfoOfReq reqD with
                                         sipDispatchRuleId := env.guidNew SIPDispatchRulePrefix } with
    | error e => simp [createSIPDispatchRule, hA, hS, hLD, hv, hw]
    | ok u => simp [createSIPDispatchRule, hA, hS, hLD, hv, hw]

/-- C1 witness: in an environment whose validators reject, the three create
operations each return the validation error after invoking the validator on
the existing entries plus the empty-ID candidate, performing no GUID
allocation and no store write; the candidates' IDs are empty. -/
theorem c1_validate_before_alloc_witness :
    ((trunkInfoOfReq reqTrunkOK).asInbound.sipTrunkId = ""
        ∧ (ruleInfoOfReq reqRuleOK).sipDispatchRuleId = "")
    ∧ createSIPTrunk envValFail reqTrunkOK
        = (.error (.validation "conflict"),
           [.listInboundTrunks,
            .validatedTrunks ([sampleInbound] ++ [(trunkInfoOfReq reqTrunkOK).asInbound])])
    ∧ createSIPDispatchRule envValFail reqRuleOK
        = (.error (.validation "conflict"),
           [.listDispatchRules,
            .validatedDispatchRules ([sampleRule] ++ [ruleInfoOfReq reqRuleOK])]) := by
  have h := c1_validate_before_alloc envValFail storeOK [sampleInbound]
    [sampleRule] reqTrunkOK reqInboundOK newInbound reqRuleOK
    (.validation "conflict") (.validation "conflict")
    rfl rfl rfl rfl rfl rfl rfl
  exact ⟨h.1, (h.2.1 rfl).1, (h.2.2.2.1 rfl).1⟩

/-- C10: once `CreateSIPParticipantRequest` passes the auth and
store-availability gates, a fresh call identifier is generated before the
outbound trunk is resolved (the trace begins with the call-ID generation,
then the trunk load), so a call ID is consumed even when the trunk lookup
fails; on success the internal request is built from that call ID, the
original request, and the loaded trunk. -/
theorem c10_call_id_before_trunk_lookup
    (env : Env) (st : SIPStore) (req : CreateSIPParticipantRequest)
    (projectID host wsUrl token : String) (e : Err)
    (trunk : SIPOutboundTrunkInfo)
    (hA : env.authCall = none) (hS : env.store = some st) :
    (createSIPParticipantRequest env req projectID host wsUrl token).2
      = [.callIDGenerated env.newCallID, .loadOutboundTrunk req.sipTrunkId]
    ∧ (st.loadSIPOutboundTrunk req.sipTrunkId = .error e →
        createSIPParticipantRequest env req projectID host wsUrl token
          = (.error e,
             [.callIDGenerated env.newCallID, .loadOutboundTrunk req.sipTrunkId]))
    ∧ (st.loadSIPOutboundTrunk req.sipTrunkId = .ok trunk →
        createSIPParticipantRequest env req projectID host wsUrl token
          = (newCreateSIPParticipantRequest projectID env.newCallID host wsUrl
               token req trunk,
             [.callIDGenerated env.newCallID, .loadOutboundTrunk req.sipTrunkId])) := by
  refine ⟨?_, ?_, ?_⟩
  · cases h : st.loadSIPOutboundTrunk req.sipTrunkId with
    | error e => simp [createSIPParticipantRequest, hA, hS, h]
    | ok t => simp [createSIPParticipantRequest, hA, hS, h]
  · intro h
    simp [createSIPParticipantRequest, hA, hS, h]
  · intro h
    simp [createSIPParticipantRequest, hA, hS, h]

/-- C10 witness: with a failing trunk lookup the call ID is still generated
first and the lookup error is returned; with a successful lookup the internal
request carries the generated call ID, the request's fields and the loaded
trunk's destination. -/
theorem c10_call_id_before_trunk_lookup_witness :
    createSIPParticipantRequest envLoadFail reqPart "" "" "" ""
      = (.error (.storeErr "trunk not found: ST_out"),
         [.callIDGenerated "SCL_1", .loadOutboundTrunk "ST_out"])
    ∧ createSIPParticipantRequest envOK reqPart "" "" "" ""
      = (.ok (internalReqFor envOK reqPart sampleOutbound),
         [.callIDGenerated "SCL_1", .loadOutboundTrunk "ST_out"]) :=
  ⟨(c10_call_id_before_trunk_lookup envLoadFail storeLoadFail reqPart
      "" "" "" "" (.storeErr "trunk not found: ST_out") sampleOutbound
      rfl rfl).2.1 rfl,
   (c10_call_id_before_trunk_lookup envOK storeOK reqPart
      "" "" "" "" .sipNotConnected sampleOutbound rfl rfl).2.2 rfl⟩

/-- C4: the timeout bounding the remote dispatch call of
`CreateSIPParticipant` equals the time remaining until the caller's deadline
when one is present, and the fixed default of 30 time units when none is;
the trace's RPC event carries exactly that timeout. -/
theorem c4_timeout_from_deadline
    (env : Env) (ctx : Context) (req : CreateSIPParticipantRequest)
    (st : SIPStore) (trunk : SIPOutboundTrunkInfo)
    (hA : env.authCall = none) (hS : env.store = some st)
    (hL : st.loadSIPOutboundTrunk req.sipTrunkId = .ok trunk) :
    (∀ d, ctx.deadline = some d →
        (createSIPParticipant env ctx req).2
          = [.callIDGenerated env.newCallID, .loadOutboundTrunk req.sipTrunkId,
             .rpcCreateParticipant (internalReqFor env req trunk) (d - ctx.now)])
    ∧ (ctx.deadline = none →
        (createSIPParticipant env ctx req).2
          = [.callIDGenerated env.newCallID, .loadOutboundTrunk req.sipTrunkId,
             .rpcCreateParticipant (internalReqFor env req trunk) 30]) := by
  have hb : createSIPParticipantRequest env req "" "" "" ""
      = (.ok (internalReqFor env req trunk),
         [.callIDGenerated env.newCallID, .loadOutboundTrunk req.sipTrunkId]) := by
    simp [createSIPParticipantRequest, hA, hS, hL,
      newCreateSIPParticipantRequest, internalReqFor]
  constructor
  · intro d hd
    have ht : timeoutFor ctx = d - ctx.now := by simp [timeoutFor, hd]
    cases hr : env.psrpcCreate (internalReqFor env req trunk) (d - ctx.now) with
    | error e => simp [createSIPParticipant, hb, ht, hr]
    | ok resp => simp [createSIPParticipant, hb, ht, hr]
  · intro hd
    have ht : timeoutFor ctx = 30 := by simp [timeoutFor, hd]
    cases hr : env.psrpcCreate (internalReqFor env req trunk) 30 with
    | error e => simp [createSIPParticipant, hb, ht, hr]
    | ok resp => simp [createSIPParticipant, hb, ht, hr]

/-- C4 witness: a call with 5 time units of remaining deadline bounds the
remote call to 5 units, not 30; with no deadline it is bounded to 30. -/
theorem c4_timeout_from_deadline_witness :
    (createSIPParticipant envOK ctx5 reqPart).2
      = [.callIDGenerated "SCL_1", .loadOutboundTrunk "ST_out",
         .rpcCreateParticipant (internalReqFor envOK reqPart sampleOutbound) 5]
    ∧ (createSIPParticipant envOK ctxNone reqPart).2
      = [.callIDGenerated "SCL_1", .loadOutboundTrunk "ST_out",
         .rpcCreateParticipant (internalReqFor envOK reqPart sampleOutbound) 30] :=
  ⟨(c4_timeout_from_deadline envOK ctx5 reqPart storeOK sampleOutbound
      rfl rfl rfl).1 15 rfl,
   (c4_timeout_from_deadline envOK ctxNone reqPart storeOK sampleOutbound
      rfl rfl rfl).2 rfl⟩

/-- C7: `CreateSIPParticipant` dispatches the enriched internal request to
the remote peer exactly once (the trace holds exactly one RPC event); a
remote error is returned to the caller unchanged, and on success the
response carries the peer-returned participant ID and identity together with
the request's room name and the generated call ID. -/
theorem c7_dispatch_once_error_unchanged
    (env : Env) (ctx : Context) (req : CreateSIPParticipantRequest)
    (st : SIPStore) (trunk : SIPOutboundTrunkInfo) (e : Err)
    (resp : InternalCreateSIPParticipantResponse)
    (hA : env.authCall = none) (hS : env.store = some st)
    (hL : st.loadSIPOutboundTrunk req.sipTrunkId = .ok trunk) :
    (createSIPParticipant env ctx req).2.countP (fun ev => ev.isRpc) = 1
    ∧ (env.psrpcCreate (internalReqFor env req trunk) (timeoutFor ctx) = .error e →
        (createSIPParticipant env ctx req).1 = .error e)
    ∧ (env.psrpcCreate (internalReqFor env req trunk) (timeoutFor ctx) = .ok resp →
        (createSIPParticipant env ctx req).1
          = .ok { participantId := resp.participantId,
                  participantIdentity := resp.participantIdentity,
                  roomName := req.roomName,
                  sipCallId := env.newCallID }) := by
  have hb : createSIPParticipantRequest env req "" "" "" ""
      = (.ok (internalReqFor env req trunk),
         [.callIDGenerated env.newCallID, .loadOutboundTrunk req.sipTrunkId]) := by
    simp [createSIPParticipantRequest, hA, hS, hL,
      newCreateSIPParticipantRequest, internalReqFor]
  refine ⟨?_, ?_, ?_⟩
  · cases hr : env.psrpcCreate (internalReqFor env req trunk) (timeoutFor ctx) with
    | error e2 =>
        simp [createSIPParticipant, hb, hr, Event.isRpc, List.countP_cons]
    | ok r =>
        simp [createSIPParticipant, hb, hr, Event.isRpc, List.countP_cons]
  · intro hr
    simp [createSIPParticipant, hb, hr]
  · intro hr
    have hc : (internalReqFor env req trunk).sipCallId = env.newCallID := rfl
    simp [createSIPParticipant, hb, hr, hc]

/-- C7 witness: both remote outcomes evaluated on concrete inputs — the RPC
error is surfaced unchanged, and the success response combines the peer's
participant ID and identity with the request's room and the generated call
ID; in each case exactly one RPC event occurs. -/
theorem c7_dispatch_once_error_unchanged_witness :
    (createSIPParticipant envRpcFail ctxNone reqPart).1
      = .error (.rpcErr "request timed out")
    ∧ (createSIPParticipant envRpcFail ctxNone reqPart).2.countP
        (fun ev => ev.isRpc) = 1
    ∧ (createSIPParticipant envOK ctxNone reqPart).1
      = .ok { participantId := "PA_1", participantIdentity := "caller",
              roomName := "room1", sipCallId := "SCL_1" } :=
  ⟨(c7_dispatch_once_error_unchanged envRpcFail ctxNone reqPart storeOK
      sampleOutbound (.rpcErr "request timed out") sampleResp rfl rfl rfl).2.1 rfl,
   (c7_dispatch_once_error_unchanged envRpcFail ctxNone reqPart storeOK
      sampleOutbound (.rpcErr "request timed out") sampleResp rfl rfl rfl).1,
   (c7_dispatch_once_error_unchanged envOK ctxNone reqPart storeOK
      sampleOutbound .sipNotConnected sampleResp rfl rfl rfl).2.2 rfl⟩

/-- C5: on every operation of the service, the authorization check is
evaluated before any other work — when it fails the operation returns the
wrapped authorization error (whose constructor is distinct from every other
error kind) with an empty trace, so neither the store nor the RPC peer is
invoked — and when it passes but the store collaborator is not configured,
the operation returns `ErrSIPNotConnected`, again with an empty trace,
before any store or RPC call. -/
theorem c5_auth_then_store_gate
    (envA envS : Env) (e : String)
    (hA1 : envA.authAdmin = some e) (hA2 : envA.authCall = some e)
    (hS1 : envS.authAdmin = none) (hS2 : envS.authCall = none)
    (hSn : envS.store = none) :
    (∀ m m2, Err.twirpAuth m ≠ Err.sipNotConnected
        ∧ Err.twirpAuth m ≠ Err.invalidInput m2
        ∧ Err.twirpAuth m ≠ Err.storeErr m2
        ∧ Err.twirpAuth m ≠ Err.validation m2
        ∧ Err.twirpAuth m ≠ Err.rpcErr m2)
    ∧ (∀ req, createSIPTrunk envA req = (.error (.twirpAuth e), []))
    ∧ (∀ req, createSIPTrunk envS req = (.error .sipNotConnected, []))
    ∧ (∀ ctx req, createSIPParticipant envA ctx req = (.error (.twirpAuth e), []))
    ∧ (∀ ctx req, createSIPParticipant envS ctx req = (.error .sipNotConnected, []))
    ∧ (∀ req, createSIPInboundTrunk envA req = (.error (.twirpAuth e), []))
    ∧ (∀ req, createSIPInboundTrunk envS req = (.error .sipNotConnected, []))
    ∧ (∀ req, createSIPOutboundTrunk envA req = (.error (.twirpAuth e), []))
    ∧ (∀ req, createSIPOutboundTrunk envS req = (.error .sipNotConnected, []))
    ∧ (∀ id, getSIPInboundTrunk envA id = (.error (.twirpAuth e), []))
    ∧ (∀ id, getSIPInboundTrunk envS id = (.error .sipNotConnected, []))
    ∧ (∀ id, getSIPOutboundTrunk envA id = (.error (.twirpAuth e), []))
    ∧ (∀ id, getSIPOutboundTrunk envS id = (.error .sipNotConnected, []))
    ∧ listSIPTrunk envA = (.error (.twirpAuth e), [])
    ∧ listSIPTrunk envS = (.error .sipNotConnected, [])
    ∧ listSIPInboundTrunk envA = (.error (.twirpAuth e), [])
    ∧ listSIPInboundTrunk envS = (.error .sipNotConnected, [])
    ∧ listSIPOutboundTrunk envA = (.error (.twirpAuth e), [])
    ∧ listSIPOutboundTrunk envS = (.error .sipNotConnected, [])
    ∧ (∀ id, deleteSIPTrunk envA id = (.error (.twirpAuth e), []))
    ∧ (∀ id, deleteSIPTrunk envS id = (.error .sipNotConnected, []))
    ∧ (∀ req, createSIPDispatchRule envA req = (.error (.twirpAuth e), []))
    ∧ (∀ req, createSIPDispatchRule envS req = (.error .sipNotConnected, []))
    ∧ listSIPDispatchRule envA = (.error (.twirpAuth e), [])
    ∧ listSIPDispatchRule envS = (.error .sipNotConnected, [])
    ∧ (∀ id, deleteSIPDispatchRule envA id = (.error (.twirpAuth e), []))
    ∧ (∀ id, deleteSIPDispatchRule envS id = (.error .sipNotConnected, []))
    ∧ (∀ req p h w t, createSIPParticipantRequest envA req p h w t
        = (.error (.twirpAuth e), []))
    ∧ (∀ req p h w t, createSIPParticipantRequest envS req p h w t
        = (.error .sipNotConnected, [])) := by
  refine ⟨?_, ?_, ?_, ?_, ?_, ?_, ?_, ?_, ?_, ?_, ?_, ?_, ?_, ?_, ?_, ?_,
    ?_, ?_, ?_, ?_, ?_, ?_, ?_, ?_, ?_, ?_, ?_, ?_, ?_⟩
  · intro m m2
    refine ⟨?_, ?_, ?_, ?_, ?_⟩ <;> simp
  · intro req; simp [createSIPTrunk, hA1]
  · intro req; simp [createSIPTrunk, hS1, hSn]
  · intro ctx req; simp [createSIPParticipant, createSIPParticipantRequest, hA2]
  · intro ctx req; simp [createSIPParticipant, createSIPParticipantRequest, hS2, hSn]
  · intro req; simp [createSIPInboundTrunk, hA1]
  · intro req; simp [createSIPInboundTrunk, hS1, hSn]
  · intro req; simp [createSIPOutboundTrunk, hA1]
  · intro req; simp [createSIPOutboundTrunk, hS1, hSn]
  · intro id; simp [getSIPInboundTrunk, hA1]
  · intro id; simp [getSIPInboundTrunk, hS1, hSn]
  · intro id; simp [getSIPOutboundTrunk, hA1]
  · intro id; simp [getSIPOutboundTrunk, hS1, hSn]
  · simp [listSIPTrunk, hA1]
  · simp [listSIPTrunk, hS1, hSn]
  · simp [listSIPInboundTrunk, hA1]
  · simp [listSIPInboundTrunk, hS1, hSn]
  · simp [listSIPOutboundTrunk, hA1]
  · simp [listSIPOutboundTrunk, hS1, hSn]
  · intro id; simp [deleteSIPTrunk, hA1]
  · intro id; simp [deleteSIPTrunk, hS1, hSn]
  · intro req; simp [createSIPDispatchRule, hA1]
  · intro req; simp [createSIPDispatchRule, hS1, hSn]
  · simp [listSIPDispatchRule, hA1]
  · simp [listSIPDispatchRule, hS1, hSn]
  · intro id; simp [deleteSIPDispatchRule, hA1]
  · intro id; simp [deleteSIPDispatchRule, hS1, hSn]
  · intro req p h w t; simp [createSIPParticipantRequest, hA2]
  · intro req p h w t; simp [createSIPParticipantRequest, hS2, hSn]

/-- C5 witness: on concrete environments — one whose auth checker denies,
one with no store configured — a create and the participant operation return
the authorization error resp. `ErrSIPNotConnected`, each with an empty
trace. -/
theorem c5_auth_then_store_gate_witness :
    createSIPTrunk envAuthFail reqTrunkOK = (.error (.twirpAuth "denied"), [])
    ∧ createSIPTrunk envNoStore reqTrunkOK = (.error .sipNotConnected, [])
    ∧ createSIPParticipant envAuthFail ctxNone reqPart
        = (.error (.twirpAuth "denied"), [])
    ∧ createSIPParticipant envNoStore ctxNone reqPart
        = (.error .sipNotConnected, []) := by
  have h := c5_auth_then_store_gate envAuthFail envNoStore "denied"
    rfl rfl rfl rfl rfl
  exact ⟨h.2.1 reqTrunkOK, h.2.2.1 reqTrunkOK,
    h.2.2.2.1 ctxNone reqPart, h.2.2.2.2.1 ctxNone reqPart⟩

end SIPService
